import Mathlib

/-!
Shallow embedding of `src/examples/python/manage_keys.py`
(`GPGSigningServiceClient`), the key-management client of the GPG
signing service repository, together with theorems settling the spec
claims about it.

HTTP is modelled explicitly: a network is a function assigning to each
logical request the sequence of responses the server would give to its
successive attempts; the urllib3 `Retry(total=3, status_forcelist=[429,503],
allowed_methods=["GET","POST","DELETE"])` adapter that the client installs
on its session is modelled as the recursive attempt loop `sessionRunAux`.
Each client operation returns its Python result (or raised exception) as an
`Except`, paired with the trace of logical HTTP calls it issued, each call
carrying the number of attempts the transport made for it.
-/

namespace ManageKeys

/-- JSON values, as returned by `response.json()`. -/
inductive JVal where
  | str (s : String)
  | num (n : Int)
  | bool (b : Bool)
  | null
  | arr (xs : List JVal)
  | obj (fields : List (String × JVal))

/-- Python `dict` lookup on a JSON object's field list (first binding wins,
mirroring dict semantics where keys are unique). -/
def jlookup : List (String × JVal) → String → Option JVal
  | [], _ => none
  | (k, v) :: rest, key => if k = key then some v else jlookup rest key

/-- Field access `v[k]` on a JSON value: only objects have fields. -/
def JVal.getField (v : JVal) (k : String) : Option JVal :=
  match v with
  | .obj fs => jlookup fs k
  | _ => none

/-- HTTP methods used by the client. -/
inductive Method where
  | GET
  | POST
  | DELETE
deriving DecidableEq

/-- An HTTP response: status code, raw body text, and the body parsed as
JSON when it parses (`none` models a `response.json()` decode failure). -/
structure Response where
  status : Nat
  text : String
  json : Option JVal

/-- A logical HTTP request as assembled by the client. -/
structure Request where
  method : Method
  url : String
  headers : List (String × String)
  params : List (String × String)
  jsonBody : Option JVal

/-- A network: for each logical request, the server's response to its
successive transport attempts (attempt `i` receives `net req i`). -/
def Net := Request → Nat → Response

/-- One logical HTTP call in an operation's trace, with the number of
transport attempts actually made for it. -/
structure CallLog where
  req : Request
  attempts : Nat

/-- Errors surfaced by client operations (Python exceptions). -/
inductive ClientError where
  | invalidArgument (msg : String)
  | remoteError (status : Nat)
  | transportError
  | malformedResponse
  | fieldError
deriving DecidableEq

/-- `Retry(status_forcelist=[429, 503], ...)` in `_create_session`. -/
def retryStatusForcelist : List Nat := [429, 503]

/-- `Retry(allowed_methods=["GET", "POST", "DELETE"], ...)`. -/
def retryAllowedMethods : List Method := [.GET, .POST, .DELETE]

/-- `Retry(total=3, ...)`: the number of retries urllib3 allows after the
initial attempt. -/
def retryTotal : Nat := 3

/-- A response the adapter would retry: status in the forcelist and the
request method in the allowed set. -/
def retryableResp (m : Method) (r : Response) : Prop :=
  r.status ∈ retryStatusForcelist ∧ m ∈ retryAllowedMethods

instance (m : Method) (r : Response) : Decidable (retryableResp m r) := by
  unfold retryableResp; infer_instance

/-- The urllib3 retry loop: attempt `i` receives `srv i`; on a retryable
response the adapter retries while retries remain, decrementing the
remaining count, and raises once they are exhausted (`raise_on_status`
default). Returns the number of attempts made, and the final response
(`none` = raised after exhausting retries). -/
def sessionRunAux (m : Method) (srv : Nat → Response) (i : Nat) :
    Nat → Nat × Option Response
  | 0 =>
    if retryableResp m (srv i) then (i + 1, none) else (i + 1, some (srv i))
  | t + 1 =>
    if retryableResp m (srv i) then sessionRunAux m srv (i + 1) t
    else (i + 1, some (srv i))

/-- A session call: run the retry loop from attempt 0 with `total=3`. -/
def sessionCall (net : Net) (req : Request) : Nat × Option Response :=
  sessionRunAux req.method (net req) 0 retryTotal

/-- The client's state: base URL (trailing slashes stripped at
construction) and the optional admin token. -/
structure Client where
  base_url : String
  admin_token : Option String

/-- `base_url.rstrip("/")` from `__init__`. -/
def rstripSlash (s : String) : String :=
  String.mk ((s.toList.reverse.dropWhile (· = '/')).reverse)

/-- Python truthiness of an optional string (`None` and `""` are falsy). -/
def truthyOptStr : Option String → Bool
  | none => false
  | some s => s ≠ ""

/-- `__init__`: strips trailing slashes off the base URL and falls back to
the environment token when the explicit one is absent or falsy
(`admin_token or os.environ.get("ADMIN_TOKEN")`). -/
def Client.init (base_url : String) (admin_token env_token : Option String) : Client :=
  { base_url := rstripSlash base_url
    admin_token := if truthyOptStr admin_token then admin_token else env_token }

/-- `_admin_headers`: raises `ValueError` when no (truthy) token is
configured, else returns bearer-auth headers. -/
def admin_headers (c : Client) : Except ClientError (List (String × String)) :=
  match c.admin_token with
  | none => .error (.invalidArgument "Admin token not configured")
  | some t =>
    if t = "" then .error (.invalidArgument "Admin token not configured")
    else .ok [("Authorization", "Bearer " ++ t), ("Content-Type", "application/json")]

/-- The literal hex alphabet `"0123456789ABCDEFabcdef"` checked by
`_validate_key_id`. -/
def hexAlphabet : List Char := "0123456789ABCDEFabcdef".toList

/-- `_validate_key_id`: 16 characters, all hexadecimal, else `ValueError`. -/
def validate_key_id (key_id : String) : Except String Unit :=
  if key_id.length ≠ 16 then
    .error ("Key ID must be exactly 16 characters, got " ++ toString key_id.length)
  else if ¬ (key_id.toList.all (· ∈ hexAlphabet)) then
    .error ("Key ID must be hexadecimal, got: " ++ key_id)
  else .ok ()

/-- `response.raise_for_status()`: raises `HTTPError` on 4xx/5xx. -/
def raise_for_status (r : Response) : Except ClientError Response :=
  if 400 ≤ r.status ∧ r.status < 600 then .error (.remoteError r.status) else .ok r

/-- `response.json()`: raises when the body is not parseable JSON. -/
def respJson (r : Response) : Except ClientError JVal :=
  match r.json with
  | none => .error .malformedResponse
  | some v => .ok v

/-- Issue one logical request through the session, recording the call and
its attempt count; exhausted retries surface as a transport error. -/
def http (net : Net) (req : Request) : Except ClientError Response × List CallLog :=
  match (sessionCall net req).2 with
  | none => (.error .transportError, [⟨req, (sessionCall net req).1⟩])
  | some r => (.ok r, [⟨req, (sessionCall net req).1⟩])

/-- The common `response.raise_for_status(); return response.json()` tail
shared by `upload_key`, `delete_key` and `get_audit_logs`. -/
def finishJson (rl : Except ClientError Response × List CallLog) :
    Except ClientError JVal × List CallLog :=
  match rl with
  | (.error e, log) => (.error e, log)
  | (.ok r, log) =>
    match raise_for_status r with
    | .error e => (.error e, log)
    | .ok r' =>
      match respJson r' with
      | .error e => (.error e, log)
      | .ok v => (.ok v, log)

/-- The POST request `upload_key` assembles. -/
def upload_req (c : Client) (hdrs : List (String × String))
    (key_id armored_private_key : String) : Request :=
  { method := .POST
    url := c.base_url ++ "/admin/keys"
    headers := hdrs
    params := []
    jsonBody := some (.obj [("keyId", .str key_id),
                            ("armoredPrivateKey", .str armored_private_key)]) }

/-- `upload_key`: validate the id, POST the payload, raise on non-2xx,
return the parsed JSON body. -/
def upload_key (c : Client) (net : Net) (key_id armored_private_key : String) :
    Except ClientError JVal × List CallLog :=
  match validate_key_id key_id with
  | .error msg => (.error (.invalidArgument msg), [])
  | .ok _ =>
    match admin_headers c with
    | .error e => (.error e, [])
    | .ok hdrs => finishJson (http net (upload_req c hdrs key_id armored_private_key))

/-- The GET request `list_keys` assembles. -/
def list_req (c : Client) (hdrs : List (String × String)) : Request :=
  { method := .GET, url := c.base_url ++ "/admin/keys"
    headers := hdrs, params := [], jsonBody := none }

/-- `list_keys`: GET the keys collection; `data.get("keys", [])` defaults
to an empty list when the object has no `keys` field (non-object bodies
fail, as `.get` on a non-dict does). -/
def list_keys (c : Client) (net : Net) : Except ClientError JVal × List CallLog :=
  match admin_headers c with
  | .error e => (.error e, [])
  | .ok hdrs =>
    match finishJson (http net (list_req c hdrs)) with
    | (.error e, log) => (.error e, log)
    | (.ok v, log) =>
      match v with
      | .obj fs => (.ok ((jlookup fs "keys").getD (.arr [])), log)
      | _ => (.error .fieldError, log)

/-- The GET request `get_public_key` assembles (no id validation). -/
def public_req (c : Client) (hdrs : List (String × String)) (key_id : String) : Request :=
  { method := .GET, url := c.base_url ++ "/admin/keys/" ++ key_id ++ "/public"
    headers := hdrs, params := [], jsonBody := none }

/-- `get_public_key`: GET the per-key public endpoint and return the raw
body text; the key id is never validated. -/
def get_public_key (c : Client) (net : Net) (key_id : String) :
    Except ClientError String × List CallLog :=
  match admin_headers c with
  | .error e => (.error e, [])
  | .ok hdrs =>
    match http net (public_req c hdrs key_id) with
    | (.error e, log) => (.error e, log)
    | (.ok r, log) =>
      match raise_for_status r with
      | .error e => (.error e, log)
      | .ok r' => (.ok r'.text, log)

/-- The DELETE request `delete_key` assembles. -/
def delete_req (c : Client) (hdrs : List (String × String)) (key_id : String) : Request :=
  { method := .DELETE, url := c.base_url ++ "/admin/keys/" ++ key_id
    headers := hdrs, params := [], jsonBody := none }

/-- `delete_key`: validate the id, DELETE the key, raise on non-2xx,
return the parsed JSON body. -/
def delete_key (c : Client) (net : Net) (key_id : String) :
    Except ClientError JVal × List CallLog :=
  match validate_key_id key_id with
  | .error msg => (.error (.invalidArgument msg), [])
  | .ok _ =>
    match admin_headers c with
    | .error e => (.error e, [])
    | .ok hdrs => finishJson (http net (delete_req c hdrs key_id))

/-- One optional audit filter: `if value: params[name] = value` (Python
truthiness: `None` and `""` both skip the parameter). -/
def optFilter (name : String) (v : Option String) : List (String × String) :=
  match v with
  | none => []
  | some s => if s = "" then [] else [(name, s)]

/-- The query parameters `get_audit_logs` builds: `limit` and `offset`
always, each optional filter only when truthy, in insertion order. -/
def audit_params (action subject start_date end_date : Option String)
    (limit offset : Int) : List (String × String) :=
  [("limit", toString limit), ("offset", toString offset)]
    ++ optFilter "action" action
    ++ optFilter "subject" subject
    ++ optFilter "startDate" start_date
    ++ optFilter "endDate" end_date

/-- The GET request `get_audit_logs` assembles. -/
def audit_req (c : Client) (hdrs ps : List (String × String)) : Request :=
  { method := .GET, url := c.base_url ++ "/admin/audit"
    headers := hdrs, params := ps, jsonBody := none }

/-- `get_audit_logs`: GET the audit endpoint with the built parameters,
raise on non-2xx, return the parsed JSON body. -/
def get_audit_logs (c : Client) (net : Net)
    (action subject start_date end_date : Option String)
    (limit offset : Int) : Except ClientError JVal × List CallLog :=
  match admin_headers c with
  | .error e => (.error e, [])
  | .ok hdrs =>
    finishJson
      (http net (audit_req c hdrs (audit_params action subject start_date end_date limit offset)))

/-- The fields of the upload result that `rotate_keys` prints
(`results['new_key']['fingerprint']` etc.); a missing one raises. -/
def rotatePrintFields (v : JVal) : Bool :=
  (v.getField "fingerprint").isSome && (v.getField "algorithm").isSome
    && (v.getField "userId").isSome

/-- `rotate_keys`: upload the new key (printing three of its fields);
when `old_key_id` is truthy, "wait" the grace period (a comment only —
nothing happens) and delete the old key immediately; return the results
dict. -/
def rotate_keys (c : Client) (net : Net) (new_key_id armored_private_key : String)
    (old_key_id : Option String) (grace_period_hours : Int) :
    Except ClientError (List (String × JVal)) × List CallLog :=
  match upload_key c net new_key_id armored_private_key with
  | (.error e, log) => (.error e, log)
  | (.ok up, log1) =>
    match rotatePrintFields up with
    | false => (.error .fieldError, log1)
    | true =>
      match truthyOptStr old_key_id with
      | false => (.ok [("new_key", up)], log1)
      | true =>
        match delete_key c net (old_key_id.getD "") with
        | (.error e, log2) => (.error e, log1 ++ log2)
        | (.ok del, log2) =>
          (.ok [("new_key", up), ("deleted", del)], log1 ++ log2)

/-- Spec-side description of a hexadecimal digit of either case
("0-9, A-F, a-f"), stated through character ranges rather than the
source's literal alphabet string. -/
def isHexDigitChar (c : Char) : Prop :=
  ('0' ≤ c ∧ c ≤ '9') ∨ ('A' ≤ c ∧ c ≤ 'F') ∨ ('a' ≤ c ∧ c ≤ 'f')

/-- A 2xx (success) HTTP status. -/
def is2xx (s : Nat) : Prop := 200 ≤ s ∧ s < 300

instance (c : Char) : Decidable (isHexDigitChar c) := by
  unfold isHexDigitChar; infer_instance

instance (s : Nat) : Decidable (is2xx s) := by
  unfold is2xx; infer_instance

/-! Concrete data used by witnesses and counterexamples. -/

/-- A network answering every attempt of every request with a plain
`200 {}` response. -/
def anyNet : Net := fun _ _ => ⟨200, "{}", some (.obj [])⟩

/-- A server that answers one 429 and then succeeds. -/
def okOnSecondSrv : Nat → Response :=
  fun i => if i = 0 then ⟨429, "busy", none⟩ else ⟨200, "ok", none⟩

/-- A server that answers 429 three times and succeeds on the fourth
attempt. -/
def okOnFourthSrv : Nat → Response :=
  fun i => if i < 3 then ⟨429, "busy", none⟩ else ⟨200, "ok", none⟩

/-- The fields of a successful upload/delete response body carrying what
`rotate_keys` prints (and no `keys` field). -/
def wBodyFields : List (String × JVal) :=
  [("success", .bool true), ("keyId", .str "0123456789abcdef"),
   ("fingerprint", .str "ABCD"), ("algorithm", .str "Ed25519"),
   ("userId", .str "ops")]

/-- A successful upload/delete response body. -/
def wBody : JVal := .obj wBodyFields

/-- A client with a configured admin token. -/
def wClient : Client := ⟨"http://svc", some "tok"⟩

/-- The admin headers `wClient` produces. -/
def wHdrs : List (String × String) :=
  [("Authorization", "Bearer tok"), ("Content-Type", "application/json")]

/-- A network answering every attempt of every request with `200 wBody`. -/
def wNet : Net := fun _ _ => ⟨200, "ok", some wBody⟩

/-- A network answering every attempt of every request with 404. -/
def notFoundNet : Net := fun _ _ => ⟨404, "not found", some (.obj [])⟩

/-- The network whose every request behaves like `okOnSecondSrv`. -/
def okOnSecondNet : Net := fun _ => okOnSecondSrv

/-- The network whose every request behaves like `okOnFourthSrv`. -/
def okOnFourthNet : Net := fun _ => okOnFourthSrv

/-- A sample GET request for exercising the session retry policy. -/
def wReq : Request := ⟨.GET, "http://svc/admin/keys", wHdrs, [], none⟩

/-! Helper lemmas. -/

theorem mem_hexAlphabet_iff (c : Char) : c ∈ hexAlphabet ↔ isHexDigitChar c := by
  have hinj : ∀ a b : Char, a.toNat = b.toNat → a = b :=
    fun a b h => Char.ext (UInt32.toNat.inj h)
  have hmap : c ∈ hexAlphabet ↔ c.toNat ∈ hexAlphabet.map Char.toNat := by
    constructor
    · exact fun h => List.mem_map_of_mem _ h
    · intro h
      rcases List.mem_map.mp h with ⟨a, ha, hEq⟩
      rwa [hinj a c hEq] at ha
  have hlist : hexAlphabet.map Char.toNat
      = [48, 49, 50, 51, 52, 53, 54, 55, 56, 57, 65, 66, 67, 68, 69, 70,
         97, 98, 99, 100, 101, 102] := by rfl
  have h0 : isHexDigitChar c ↔
      ((48 ≤ c.toNat ∧ c.toNat ≤ 57) ∨ (65 ≤ c.toNat ∧ c.toNat ≤ 70)
        ∨ (97 ≤ c.toNat ∧ c.toNat ≤ 102)) := Iff.rfl
  rw [hmap, hlist, h0]
  simp only [List.mem_cons, List.not_mem_nil, or_false]
  omega

theorem method_mem_allowed (m : Method) : m ∈ retryAllowedMethods := by
  cases m <;> decide

theorem sessionRunAux_attempts_le (m : Method) (srv : Nat → Response) :
    ∀ total i, (sessionRunAux m srv i total).1 ≤ i + total + 1 := by
  intro total
  induction total with
  | zero =>
    intro i
    unfold sessionRunAux
    split <;> simp
  | succ t ih =>
    intro i
    unfold sessionRunAux
    split
    · have := ih (i + 1)
      omega
    · simp

theorem sessionRunAux_no_retry (m : Method) (srv : Nat → Response) (i total : Nat)
    (h : (srv i).status ∉ retryStatusForcelist) :
    sessionRunAux m srv i total = (i + 1, some (srv i)) := by
  have hn : ¬ retryableResp m (srv i) := fun hcon => h hcon.1
  cases total <;> · unfold sessionRunAux; rw [if_neg hn]

theorem sessionRunAux_second_ok (m : Method) (srv : Nat → Response)
    (h0 : (srv 0).status ∈ retryStatusForcelist)
    (h1 : (srv 1).status ∉ retryStatusForcelist) :
    sessionRunAux m srv 0 retryTotal = (2, some (srv 1)) := by
  show sessionRunAux m srv 0 3 = (2, some (srv 1))
  unfold sessionRunAux
  rw [if_pos ⟨h0, method_mem_allowed m⟩]
  exact sessionRunAux_no_retry m srv 1 2 h1

theorem is2xx_not_forcelist {s : Nat} (h : is2xx s) : s ∉ retryStatusForcelist := by
  rcases h with ⟨h1, h2⟩
  intro hmem
  simp only [retryStatusForcelist, List.mem_cons, List.not_mem_nil, or_false] at hmem
  omega

theorem sessionCall_first (net : Net) (req : Request)
    (h : (net req 0).status ∉ retryStatusForcelist) :
    sessionCall net req = (1, some (net req 0)) :=
  sessionRunAux_no_retry req.method (net req) 0 retryTotal h

theorem http_first (net : Net) (req : Request)
    (h : (net req 0).status ∉ retryStatusForcelist) :
    http net req = (.ok (net req 0), [⟨req, 1⟩]) := by
  unfold http
  rw [sessionCall_first net req h]

theorem raise_for_status_2xx (r : Response) (h : is2xx r.status) :
    raise_for_status r = .ok r := by
  unfold raise_for_status
  rw [if_neg]
  rcases h with ⟨h1, h2⟩
  intro hcon
  omega

theorem finishJson_snd (rl : Except ClientError Response × List CallLog) :
    (finishJson rl).2 = rl.2 := by
  unfold finishJson
  rcases rl with ⟨e | r, log⟩
  · rfl
  · dsimp only
    split
    · rfl
    · split <;> rfl

theorem http_snd (net : Net) (req : Request) :
    (http net req).2 = [⟨req, (sessionCall net req).1⟩] := by
  unfold http
  split <;> rfl

theorem upload_key_ok_shape (c : Client) (net : Net) (key_id armored : String)
    (v : JVal) (log : List CallLog)
    (h : upload_key c net key_id armored = (.ok v, log)) :
    ∃ hdrs, admin_headers c = .ok hdrs ∧
      log = [⟨upload_req c hdrs key_id armored,
             (sessionCall net (upload_req c hdrs key_id armored)).1⟩] := by
  unfold upload_key at h
  rcases hv : validate_key_id key_id with msg | u
  · rw [hv] at h
    simp at h
  · rw [hv] at h
    dsimp only at h
    rcases hh : admin_headers c with e | hdrs
    · rw [hh] at h
      simp at h
    · rw [hh] at h
      dsimp only at h
      refine ⟨hdrs, rfl, ?_⟩
      have hsnd := congrArg Prod.snd h
      rw [finishJson_snd, http_snd] at hsnd
      exact hsnd.symm

theorem delete_key_ok_shape (c : Client) (net : Net) (key_id : String)
    (v : JVal) (log : List CallLog)
    (h : delete_key c net key_id = (.ok v, log)) :
    ∃ hdrs, admin_headers c = .ok hdrs ∧
      log = [⟨delete_req c hdrs key_id,
             (sessionCall net (delete_req c hdrs key_id)).1⟩] := by
  unfold delete_key at h
  rcases hv : validate_key_id key_id with msg | u
  · rw [hv] at h
    simp at h
  · rw [hv] at h
    dsimp only at h
    rcases hh : admin_headers c with e | hdrs
    · rw [hh] at h
      simp at h
    · rw [hh] at h
      dsimp only at h
      refine ⟨hdrs, rfl, ?_⟩
      have hsnd := congrArg Prod.snd h
      rw [finishJson_snd, http_snd] at hsnd
      exact hsnd.symm

theorem pair_mem_optFilter (name k x : String) (v : Option String) :
    (k, x) ∈ optFilter name v ↔ (k = name ∧ v = some x ∧ x ≠ "") := by
  cases v with
  | none => simp [optFilter]
  | some s =>
    by_cases hs : s = ""
    · subst hs
      simp only [optFilter, if_pos, ite_true, List.not_mem_nil, false_iff, not_and,
        Option.some.injEq]
      exact fun _ h => not_not_intro h.symm
    · simp only [optFilter, hs, if_neg, ite_false, List.mem_singleton, Prod.mk.injEq,
        Option.some.injEq]
      constructor
      · rintro ⟨rfl, rfl⟩
        exact ⟨rfl, rfl, hs⟩
      · rintro ⟨rfl, rfl, _⟩
        exact ⟨rfl, rfl⟩

/-! Claim theorems. -/

/-- C1: `_validate_key_id` succeeds exactly on the strings of length 16
whose characters are all hexadecimal digits of either case (0-9, A-F,
a-f), and raises a `ValueError` (the InvalidArgument error) on every
other string. -/
theorem validate_key_id_spec (key_id : String) :
    (validate_key_id key_id = .ok () ↔
      (key_id.length = 16 ∧ ∀ c ∈ key_id.toList, isHexDigitChar c))
    ∧ (¬ (key_id.length = 16 ∧ ∀ c ∈ key_id.toList, isHexDigitChar c) →
        ∃ msg, validate_key_id key_id = .error msg) := by
  have hiff : validate_key_id key_id = .ok () ↔
      (key_id.length = 16 ∧ ∀ c ∈ key_id.toList, isHexDigitChar c) := by
    unfold validate_key_id
    split
    · rename_i h
      simp only [reduceCtorEq, false_iff]
      exact fun hcon => h hcon.1
    · rename_i h
      split
      · rename_i h2
        simp only [reduceCtorEq, false_iff]
        intro hcon
        apply h2
        simp only [List.all_eq_true, decide_eq_true_eq]
        intro c hc
        exact (mem_hexAlphabet_iff c).mpr (hcon.2 c hc)
      · rename_i h2
        simp only [true_iff]
        refine ⟨by omega, ?_⟩
        intro c hc
        rw [← mem_hexAlphabet_iff]
        rw [not_not] at h2
        simp only [List.all_eq_true, decide_eq_true_eq] at h2
        exact h2 c hc
  refine ⟨hiff, fun hn => ?_⟩
  rcases hval : validate_key_id key_id with msg | u
  · exact ⟨msg, rfl⟩
  · cases u
    exact absurd (hiff.mp hval) hn

/-- C1 witness: a valid id is accepted, an invalid one rejected. -/
theorem validate_key_id_spec_witness :
    validate_key_id "0123456789abcDEF" = .ok ()
    ∧ ∃ msg, validate_key_id "xyz" = .error msg :=
  ⟨(validate_key_id_spec "0123456789abcDEF").1.mpr (by decide),
   (validate_key_id_spec "xyz").2 (by decide)⟩

/-- C2 counterexample: a server answering 429 three times and then 200
makes the session succeed on a FOURTH attempt — refuting "at most 3 total
HTTP attempts are ever made (never a 4th attempt)". -/
theorem session_fourth_attempt_counterexample :
    (sessionCall okOnFourthNet wReq).2 = some ⟨200, "ok", none⟩
    ∧ (sessionCall okOnFourthNet wReq).1 = 4
    ∧ ¬ (sessionCall okOnFourthNet wReq).1 ≤ 3 :=
  ⟨rfl, rfl, by decide⟩

/-- C2 (amended): for any request through the session (its method being
GET, POST or DELETE), a transient-failure status (429/503) followed by a
2xx answer on the retried attempt yields success after exactly 2
attempts, and in every case at most `retryTotal + 1 = 4` total attempts
are made (1 initial + up to 3 retries). -/
theorem session_transient_retry (net : Net) (req : Request) :
    ((net req 0).status ∈ retryStatusForcelist → is2xx (net req 1).status →
      sessionCall net req = (2, some (net req 1)))
    ∧ (sessionCall net req).1 ≤ retryTotal + 1 := by
  constructor
  · intro h0 h1
    exact sessionRunAux_second_ok req.method (net req) h0 (is2xx_not_forcelist h1)
  · have h := sessionRunAux_attempts_le req.method (net req) retryTotal 0
    simpa using h

/-- C2 witness: a 429 followed by a 200 succeeds within the bound. -/
theorem session_transient_retry_witness :
    sessionCall okOnSecondNet wReq = (2, some ⟨200, "ok", none⟩)
    ∧ (sessionCall okOnSecondNet wReq).1 ≤ retryTotal + 1 :=
  ⟨(session_transient_retry okOnSecondNet wReq).1 (by decide) (by decide),
   (session_transient_retry okOnSecondNet wReq).2⟩

/-- C3: on a key id rejected by `_validate_key_id`, both `upload_key` and
`delete_key` surface the InvalidArgument error with an EMPTY trace of
HTTP calls: no network request is issued. -/
theorem invalid_key_id_no_network (c : Client) (net : Net) (key_id armored msg : String)
    (h : validate_key_id key_id = .error msg) :
    upload_key c net key_id armored = (.error (.invalidArgument msg), [])
    ∧ delete_key c net key_id = (.error (.invalidArgument msg), []) := by
  unfold upload_key delete_key
  rw [h]
  exact ⟨rfl, rfl⟩

/-- C3 witness: the invalid id `"xyz"` produces no network call. -/
theorem invalid_key_id_no_network_witness :
    upload_key wClient anyNet "xyz" "KEY"
      = (.error (.invalidArgument "Key ID must be exactly 16 characters, got 3"), [])
    ∧ delete_key wClient anyNet "xyz"
      = (.error (.invalidArgument "Key ID must be exactly 16 characters, got 3"), []) :=
  invalid_key_id_no_network wClient anyNet "xyz" "KEY"
    "Key ID must be exactly 16 characters, got 3" rfl

/-- C4 counterexample: the empty string is a provided (non-`None`)
argument, yet `get_audit_logs` sends no `action` parameter for it —
refuting "an entry … exactly when the corresponding optional argument was
provided". -/
theorem audit_params_provided_empty_counterexample :
    (some "" : Option String) ≠ none
    ∧ "action" ∉ (audit_params (some "") none none none 100 0).map Prod.fst :=
  ⟨by decide, by decide⟩

/-- C4 (amended): the query parameters always contain `limit` and
`offset`, and contain an entry for an optional filter exactly when that
argument was provided as a non-empty (truthy) string; a filter left unset
never appears. -/
theorem audit_params_spec (action subject start_date end_date : Option String)
    (limit offset : Int) :
    ("limit", toString limit)
        ∈ audit_params action subject start_date end_date limit offset
    ∧ ("offset", toString offset)
        ∈ audit_params action subject start_date end_date limit offset
    ∧ ("action" ∈ (audit_params action subject start_date end_date limit offset).map Prod.fst
        ↔ ∃ s, action = some s ∧ s ≠ "")
    ∧ ("subject" ∈ (audit_params action subject start_date end_date limit offset).map Prod.fst
        ↔ ∃ s, subject = some s ∧ s ≠ "")
    ∧ ("startDate" ∈ (audit_params action subject start_date end_date limit offset).map Prod.fst
        ↔ ∃ s, start_date = some s ∧ s ≠ "")
    ∧ ("endDate" ∈ (audit_params action subject start_date end_date limit offset).map Prod.fst
        ↔ ∃ s, end_date = some s ∧ s ≠ "") := by
  refine ⟨by simp [audit_params], by simp [audit_params], ?_, ?_, ?_, ?_⟩ <;>
    simp [audit_params, pair_mem_optFilter]

/-- C10: passing `""` for any optional audit filter builds exactly the
same query parameters as passing `None`: the code distinguishes filters
by truthiness, not by whether an argument was supplied. -/
theorem audit_params_empty_string_filters (action subject start_date end_date : Option String)
    (limit offset : Int) :
    audit_params (some "") subject start_date end_date limit offset
      = audit_params none subject start_date end_date limit offset
    ∧ audit_params action (some "") start_date end_date limit offset
      = audit_params action none start_date end_date limit offset
    ∧ audit_params action subject (some "") end_date limit offset
      = audit_params action subject none end_date limit offset
    ∧ audit_params action subject start_date (some "") limit offset
      = audit_params action subject start_date none limit offset := by
  refine ⟨?_, ?_, ?_, ?_⟩ <;> simp [audit_params, optFilter]

/-- C5: `rotate_keys` with `old_key_id` unset issues exactly one network
call (the upload) and returns a record with the upload result under
`new_key` and no `deleted` entry. -/
theorem rotate_keys_old_unset (c : Client) (net : Net)
    (new_key_id armored : String) (grace : Int) (up : JVal) (log : List CallLog)
    (hup : upload_key c net new_key_id armored = (.ok up, log))
    (hpf : rotatePrintFields up = true) :
    rotate_keys c net new_key_id armored none grace = (.ok [("new_key", up)], log)
    ∧ log.length = 1
    ∧ jlookup [("new_key", up)] "new_key" = some up
    ∧ jlookup [("new_key", up)] "deleted" = none := by
  rcases upload_key_ok_shape c net new_key_id armored up log hup with ⟨hdrs, hh, hlog⟩
  refine ⟨?_, by rw [hlog]; rfl, by rfl, by rfl⟩
  unfold rotate_keys
  rw [hup]
  dsimp only
  rw [hpf]
  rfl

/-- C5 witness: a concrete rotation without an old key. -/
theorem rotate_keys_old_unset_witness :
    rotate_keys wClient wNet "0123456789abcdef" "KEY" none 24
      = (.ok [("new_key", wBody)],
         [⟨upload_req wClient wHdrs "0123456789abcdef" "KEY", 1⟩])
    ∧ ([⟨upload_req wClient wHdrs "0123456789abcdef" "KEY", 1⟩] : List CallLog).length = 1
    ∧ jlookup [("new_key", wBody)] "new_key" = some wBody
    ∧ jlookup [("new_key", wBody)] "deleted" = none :=
  rotate_keys_old_unset wClient wNet "0123456789abcdef" "KEY" 24 wBody
    [⟨upload_req wClient wHdrs "0123456789abcdef" "KEY", 1⟩] rfl rfl

/-- C6: `rotate_keys` with `old_key_id` set issues exactly two network
calls — the upload (POST) immediately followed by the delete (DELETE) —
whatever the value of `grace_period_hours`, and returns both results. -/
theorem rotate_keys_old_set (c : Client) (net : Net)
    (new_key_id armored old : String) (grace : Int) (up del : JVal)
    (log1 log2 : List CallLog)
    (hold : old ≠ "")
    (hup : upload_key c net new_key_id armored = (.ok up, log1))
    (hpf : rotatePrintFields up = true)
    (hdel : delete_key c net old = (.ok del, log2)) :
    rotate_keys c net new_key_id armored (some old) grace
      = (.ok [("new_key", up), ("deleted", del)], log1 ++ log2)
    ∧ ∃ cl1 cl2, log1 = [cl1] ∧ log2 = [cl2] ∧ log1 ++ log2 = [cl1, cl2]
        ∧ cl1.req.method = .POST ∧ cl2.req.method = .DELETE := by
  rcases upload_key_ok_shape c net new_key_id armored up log1 hup with ⟨h1, hh1, hlog1⟩
  rcases delete_key_ok_shape c net old del log2 hdel with ⟨h2, hh2, hlog2⟩
  constructor
  · unfold rotate_keys
    rw [hup]
    dsimp only
    rw [hpf]
    have htr : truthyOptStr (some old) = true := by
      simp [truthyOptStr, hold]
    rw [htr]
    dsimp only
    rw [show delete_key c net ((some old).getD "") = (Except.ok del, log2) from hdel]
  · refine ⟨_, _, hlog1, hlog2, ?_, rfl, rfl⟩
    rw [hlog1, hlog2]
    rfl

/-- C6 witness: a concrete rotation with an old key, two calls issued. -/
theorem rotate_keys_old_set_witness :
    rotate_keys wClient wNet "0123456789abcdef" "KEY" (some "fedcba9876543210") 24
      = (.ok [("new_key", wBody), ("deleted", wBody)],
         [⟨upload_req wClient wHdrs "0123456789abcdef" "KEY", 1⟩]
           ++ [⟨delete_req wClient wHdrs "fedcba9876543210", 1⟩])
    ∧ ∃ cl1 cl2,
        ([⟨upload_req wClient wHdrs "0123456789abcdef" "KEY", 1⟩] : List CallLog) = [cl1]
        ∧ ([⟨delete_req wClient wHdrs "fedcba9876543210", 1⟩] : List CallLog) = [cl2]
        ∧ [⟨upload_req wClient wHdrs "0123456789abcdef" "KEY", 1⟩]
            ++ [⟨delete_req wClient wHdrs "fedcba9876543210", 1⟩] = [cl1, cl2]
        ∧ cl1.req.method = .POST ∧ cl2.req.method = .DELETE :=
  rotate_keys_old_set wClient wNet "0123456789abcdef" "KEY" "fedcba9876543210" 24
    wBody wBody
    [⟨upload_req wClient wHdrs "0123456789abcdef" "KEY", 1⟩]
    [⟨delete_req wClient wHdrs "fedcba9876543210", 1⟩]
    (by decide) rfl rfl rfl

/-- C7: a 2xx `list_keys` response whose JSON object lacks a `keys` field
yields the empty list, not an error. -/
theorem list_keys_missing_keys_field (c : Client) (net : Net)
    (hdrs : List (String × String)) (fs : List (String × JVal))
    (hh : admin_headers c = .ok hdrs)
    (h2 : is2xx (net (list_req c hdrs) 0).status)
    (hjson : (net (list_req c hdrs) 0).json = some (.obj fs))
    (hkeys : jlookup fs "keys" = none) :
    list_keys c net = (.ok (.arr []), [⟨list_req c hdrs, 1⟩]) := by
  unfold list_keys
  rw [hh]
  dsimp only
  rw [http_first net _ (is2xx_not_forcelist h2)]
  unfold finishJson
  dsimp only
  rw [raise_for_status_2xx _ h2]
  dsimp only
  unfold respJson
  rw [hjson]
  dsimp only
  rw [hkeys]
  rfl

/-- C7 witness: a `200` object body with no `keys` field. -/
theorem list_keys_missing_keys_field_witness :
    list_keys wClient wNet = (.ok (.arr []), [⟨list_req wClient wHdrs, 1⟩]) :=
  list_keys_missing_keys_field wClient wNet wHdrs wBodyFields rfl (by decide) rfl rfl

/-- C8: a terminal 404 on `delete_key` surfaces the RemoteError
immediately, with exactly one HTTP attempt recorded (no retry). -/
theorem delete_key_terminal_404 (c : Client) (net : Net) (key_id : String)
    (hdrs : List (String × String))
    (hv : validate_key_id key_id = .ok ())
    (hh : admin_headers c = .ok hdrs)
    (h404 : (net (delete_req c hdrs key_id) 0).status = 404) :
    delete_key c net key_id
      = (.error (.remoteError 404), [⟨delete_req c hdrs key_id, 1⟩]) := by
  unfold delete_key
  rw [hv]
  dsimp only
  rw [hh]
  dsimp only
  rw [http_first net _ (by rw [h404]; decide)]
  simp [finishJson, raise_for_status, h404]

/-- C8 witness: a 404 delete on a valid id, one attempt. -/
theorem delete_key_terminal_404_witness :
    delete_key wClient notFoundNet "0123456789abcdef"
      = (.error (.remoteError 404),
         [⟨delete_req wClient wHdrs "0123456789abcdef", 1⟩]) :=
  delete_key_terminal_404 wClient notFoundNet "0123456789abcdef" wHdrs rfl rfl rfl

/-- C9: `get_public_key` performs no validation of the key id — for EVERY
string, including ones `_validate_key_id` rejects, it issues the GET to
the per-key public endpoint and on a 2xx response returns the body text
verbatim. -/
theorem get_public_key_no_validation (c : Client) (net : Net) (key_id : String)
    (hdrs : List (String × String))
    (hh : admin_headers c = .ok hdrs)
    (h2 : is2xx (net (public_req c hdrs key_id) 0).status) :
    get_public_key c net key_id
      = (.ok (net (public_req c hdrs key_id) 0).text, [⟨public_req c hdrs key_id, 1⟩])
    ∧ (public_req c hdrs key_id).url
        = c.base_url ++ "/admin/keys/" ++ key_id ++ "/public" := by
  refine ⟨?_, rfl⟩
  unfold get_public_key
  rw [hh]
  dsimp only
  rw [http_first net _ (is2xx_not_forcelist h2)]
  dsimp only
  rw [raise_for_status_2xx _ h2]

/-- C9 witness: an id `_validate_key_id` would reject still gets the GET
issued and the text returned. -/
theorem get_public_key_no_validation_witness :
    get_public_key wClient wNet "not-a-hex-id"
      = (.ok "ok", [⟨public_req wClient wHdrs "not-a-hex-id", 1⟩])
    ∧ (public_req wClient wHdrs "not-a-hex-id").url
        = wClient.base_url ++ "/admin/keys/" ++ "not-a-hex-id" ++ "/public" :=
  get_public_key_no_validation wClient wNet "not-a-hex-id" wHdrs rfl (by decide)

end ManageKeys
